import Mathlib

/-!
Verification of the quadrature-decoder and switch-classifier core of the
rotary-switch-helper crate.  The Rust sources embedded here are
`src/rotary_encoder.rs` (`Direction`, `Pin`, `Encoder::update_state`, the
per-line interrupt handlers installed by `Encoder::enable_callbacks`),
`src/rotary_encoder_switch.rs` (the shift-capable handler) and the
long-press / configuration-resolution behaviour described by the design
document, which the caller in `src/lib.rs` and the integration tests
exercise but whose implementation is absent from the sources.

Machine integers: the Rust code works on `u8`; states and levels are
embedded as `Nat` with wrapping (`% 256`) applied exactly where the Rust
`<<` on `u8` discards high bits.
-/

namespace RotaryHelper

/-- `Direction` from `src/rotary_encoder.rs`: direction of rotation. -/
inductive Direction
  | Clockwise
  | CounterClockwise
  | None
deriving DecidableEq, Repr, Fintype

/-- `Pin` from `src/rotary_encoder.rs`: which signal line an edge arrived on. -/
inductive Pin
  | Dt
  | Clk
deriving DecidableEq, Repr, Fintype

/-- The data carried by the decode-error message
`"Invalid state transition: from {old_state} / {old_direction} -> {trans_state}"`
raised by `Encoder::update_state`. -/
structure DecodeError where
  oldState : Nat
  oldDirection : Direction
  transState : Nat
deriving DecidableEq, Repr

instance {ε α : Type} [DecidableEq ε] [DecidableEq α] : DecidableEq (Except ε α) := fun a b =>
  match a, b with
  | .error e, .error f =>
    if h : e = f then isTrue (by rw [h]) else isFalse (fun hc => h (Except.error.inj hc))
  | .ok x, .ok y =>
    if h : x = y then isTrue (by rw [h]) else isFalse (fun hc => h (Except.ok.inj hc))
  | .error _, .ok _ => isFalse (fun hc => Except.noConfusion hc)
  | .ok _, .error _ => isFalse (fun hc => Except.noConfusion hc)

/-- The `new_state` computation of `Encoder::update_state`:
`Pin::Clk => (old_state & 0b10) + level`, `Pin::Dt => (old_state & 0b01) + (level << 1)`. -/
def newStateOf (oldState : Nat) (pin : Pin) (level : Nat) : Nat :=
  match pin with
  | .Clk => (oldState &&& 0b10) + level
  | .Dt => (oldState &&& 0b01) + (level <<< 1)

/-- The `trans_state` computation of `Encoder::update_state`:
`(old_state << 2) + new_state` on `u8` (the shift drops high bits). -/
def transStateOf (oldState newState : Nat) : Nat :=
  ((oldState <<< 2) % 256 + newState) % 256

/-- The `match trans_state` classification inside `Encoder::update_state`.
Rust guard failures (`0b0100 if ...`, `0b1000 if ...`, `0b1100 if ...`)
fall through to the catch-all `Err` arm, which is what the inner `if`s
reproduce here. -/
def classify (oldState : Nat) (oldDirection : Direction) (transState : Nat) :
    Except DecodeError (Direction × Bool) :=
  if transState = 0b0001 then .ok (.Clockwise, false)
  else if transState = 0b0010 then .ok (.CounterClockwise, false)
  else if transState = 0b0111 then .ok (.Clockwise, false)
  else if transState = 0b0100 then
    if oldDirection = .CounterClockwise then .ok (.CounterClockwise, true)
    else .error ⟨oldState, oldDirection, transState⟩
  else if transState = 0b1011 then .ok (.CounterClockwise, false)
  else if transState = 0b1000 then
    if oldDirection = .Clockwise then .ok (.Clockwise, true)
    else .error ⟨oldState, oldDirection, transState⟩
  else if transState = 0b1101 then .ok (.CounterClockwise, false)
  else if transState = 0b1110 then .ok (.Clockwise, false)
  else if transState = 0b1100 then
    if oldDirection ≠ Direction.None then .ok (oldDirection, true)
    else .error ⟨oldState, oldDirection, transState⟩
  else .error ⟨oldState, oldDirection, transState⟩

/-- `Encoder::update_state` from `src/rotary_encoder.rs` (the copy in
`src/rotary_encoder_switch.rs` is textually identical): returns
`(new_state, direction, trigger)` or the decode error. -/
def updateState (oldState : Nat) (oldDirection : Direction) (pin : Pin) (level : Nat) :
    Except DecodeError (Nat × Direction × Bool) :=
  let newState := newStateOf oldState pin level
  let transState := transStateOf oldState newState
  match classify oldState oldDirection transState with
  | .error e => .error e
  | .ok (d, trigger) => .ok (newState, d, trigger)

/-- The `rppal` trigger kinds the interrupt closures in `enable_callbacks`
distinguish: `Trigger::RisingEdge`, `Trigger::FallingEdge`, and the
catch-all `_` arm (any other trigger kind). -/
inductive EdgeKind
  | RisingEdge
  | FallingEdge
  | Other
deriving DecidableEq, Repr, Fintype

/-- The edge-kind → level mapping inside both interrupt closures:
`Trigger::RisingEdge => 0, Trigger::FallingEdge => 1, _ => return`. -/
def levelOfEdge : EdgeKind → Option Nat
  | .RisingEdge => some 0
  | .FallingEdge => some 1
  | .Other => Option.none

/-- The two shared atomic cells of one logical encoder:
`state: Arc<AtomicU8>` and `direction: Arc<AtomicDirection>`. -/
structure EncoderCells where
  state : Nat
  direction : Direction
deriving DecidableEq, Repr

/-- One interrupt-closure invocation of the plain rotary encoder
(`src/rotary_encoder.rs`, `enable_callbacks`): load the cells, run
`update_state`, store both cells only on `Ok`, and invoke the callback
(whose payload is the direction; the name is fixed per encoder) only when
`trigger` is set.  Returns the cells after the call and the callback
invocation, if any. -/
def handleEdge (cells : EncoderCells) (pin : Pin) (edge : EdgeKind) :
    EncoderCells × Option Direction :=
  match levelOfEdge edge with
  | Option.none => (cells, Option.none)
  | some level =>
    match updateState cells.state cells.direction pin level with
    | .error _ => (cells, Option.none)
    | .ok (newState, newDirection, trigger) =>
      (⟨newState, newDirection⟩,
        if trigger then some newDirection else Option.none)

/-- Iterated `handleEdge` over a sequence of delivered edges, collecting the
callback invocations in order. -/
def runEdges (cells : EncoderCells) : List (Pin × EdgeKind) → EncoderCells × List Direction
  | [] => (cells, [])
  | e :: rest =>
    let step := handleEdge cells e.1 e.2
    let tail := runEdges step.1 rest
    (tail.1, step.2.toList ++ tail.2)

/-- `rppal`'s `Level` (instantaneous pin read). -/
inductive Level
  | High
  | Low
deriving DecidableEq, Repr, Fintype

/-- One interrupt-closure invocation of the shift-capable rotary encoder
(`src/rotary_encoder_switch.rs`, `enable_callbacks`): as `handleEdge`, but
on `trigger` it samples the switch pin and matches
`sw_pin.read() == Level::High { false => callback(&name_shifted, ..), true => callback(&name, ..) }`.
`swLevel` is the sampled instantaneous level of the switch pin. -/
def handleEdgeSw (name nameShifted : String) (cells : EncoderCells) (pin : Pin)
    (edge : EdgeKind) (swLevel : Level) :
    EncoderCells × Option (String × Direction) :=
  match levelOfEdge edge with
  | Option.none => (cells, Option.none)
  | some level =>
    match updateState cells.state cells.direction pin level with
    | .error _ => (cells, Option.none)
    | .ok (newState, newDirection, trigger) =>
      (⟨newState, newDirection⟩,
        if trigger then
          match swLevel == Level.High with
          | false => some (nameShifted, newDirection)
          | true => some (name, newDirection)
        else Option.none)

/-- Outcome of resolving the name to report at a detent trigger. -/
inductive TriggerResolution
  | invoke (n : String)
  | configError
deriving DecidableEq, Repr

/-- Modelled from the spec: the trigger-time name resolution of the Rotary
Event Dispatcher for the construction surface with an *optional* shifted
name and an *optional* switch pin (`RotaryDefinition` in `src/lib.rs`).
The dispatcher implementing it is the seven-argument
`rotary_encoder::Encoder::new` that `lib.rs` and the integration tests
call; its body is absent from the sources, which only hold the
five-argument unshifted variant.  Spec: neither configured → base name;
both configured → sample the switch pin, asserted (logic low) → shifted
name, else base name; exactly one configured → configuration error,
suppress the callback and surface a diagnostic.
`swSample` is `some l` when a switch pin is configured and reads level `l`,
`Option.none` when no switch pin is configured. -/
def resolveTriggerName (name : String) (nameShifted : Option String)
    (swSample : Option Level) : TriggerResolution :=
  match nameShifted, swSample with
  | Option.none, Option.none => .invoke name
  | some shifted, some l => .invoke (if l = Level.Low then shifted else name)
  | some _, Option.none => .configError
  | Option.none, some _ => .configError

/-- Modelled from the spec: one interrupt-closure invocation of the
optionally-shifted rotary dispatcher (the missing seven-argument
`rotary_encoder::Encoder::new`): on a successful decode persist the cells;
on `trigger` resolve the name via `resolveTriggerName`; a configuration
error suppresses the callback, logs a diagnostic (the `Bool` component)
and leaves the encoder running. -/
def handleEdgeCfg (name : String) (nameShifted : Option String)
    (swSample : Option Level) (cells : EncoderCells) (pin : Pin) (edge : EdgeKind) :
    EncoderCells × Option (String × Direction) × Bool :=
  match levelOfEdge edge with
  | Option.none => (cells, Option.none, false)
  | some level =>
    match updateState cells.state cells.direction pin level with
    | .error _ => (cells, Option.none, false)
    | .ok (newState, newDirection, trigger) =>
      if trigger then
        match resolveTriggerName name nameShifted swSample with
        | .invoke n => (⟨newState, newDirection⟩, some (n, newDirection), false)
        | .configError => (⟨newState, newDirection⟩, Option.none, true)
      else (⟨newState, newDirection⟩, Option.none, false)

/-- Modelled from the spec: the long-press mode of the Switch Event
Classifier (selected at construction by the presence of a long-press name).
The implementation is the missing six-argument `switch_encoder::Encoder::new`
taking `Option<&str>` long-press name and `Option<Duration>` threshold,
which `src/lib.rs` and the integration test call; the `Encoder::new` under
`src/` lacks the mode entirely.  Spec: falling edge → record the event
timestamp as press-start, `callback(name, true)`; rising edge → with a
recorded press-start, `elapsed = release_timestamp − press_start` exceeds
the threshold → `callback(long_press_name, false)`, else
`callback(name, false)`, clearing press-start either way; without a
recorded press-start, treat as below threshold.  Timestamps and the
threshold are in the same abstract time unit. -/
def handleLongPressEdge (name longPressName : String) (threshold : Nat)
    (pressStart : Option Nat) (edge : EdgeKind) (timestamp : Nat) :
    Option Nat × Option (String × Bool) :=
  match edge with
  | .FallingEdge => (some timestamp, some (name, true))
  | .RisingEdge =>
    match pressStart with
    | some start =>
      (Option.none,
        some (if threshold < timestamp - start then longPressName else name, false))
    | Option.none => (Option.none, some (name, false))
  | .Other => (pressStart, Option.none)

/-! ## Helper lemmas -/

theorem newStateOf_lt_four (o : Nat) (pin : Pin) {l : Nat} (hl : l < 2) :
    newStateOf o pin l < 4 := by
  have h2 : o &&& 2 ≤ 2 := Nat.and_le_right
  have h1 : o &&& 1 ≤ 1 := Nat.and_le_right
  cases pin <;> simp only [newStateOf, Nat.shiftLeft_eq] <;> omega

theorem classify_ok_trigger {o : Nat} {d : Direction} {w : Nat} {p : Direction × Bool}
    (h : classify o d w = .ok p) (ht : p.2 = true) : w = 4 ∨ w = 8 ∨ w = 12 := by
  unfold classify at h
  repeat' split at h
  all_goals
    first
      | exact Except.noConfusion h
      | (injection h with h'; subst h'; omega)
      | (injection h with h'; subst h'; simp at ht)

theorem classify_ok_direction {o : Nat} {d : Direction} {w : Nat} {p : Direction × Bool}
    (h : classify o d w = .ok p) : p.1 ≠ Direction.None := by
  unfold classify at h
  repeat' split at h
  all_goals
    first
      | exact Except.noConfusion h
      | (injection h with h'; subst h'; decide)
      | (injection h with h'; subst h'; dsimp only; tauto)

theorem updateState_ok {o : Nat} {d : Direction} {pin : Pin} {l : Nat}
    {ns : Nat} {nd : Direction} {tr : Bool}
    (h : updateState o d pin l = .ok (ns, nd, tr)) :
    ns = newStateOf o pin l ∧
      classify o d (transStateOf o (newStateOf o pin l)) = .ok (nd, tr) := by
  simp only [updateState] at h
  cases hc : classify o d (transStateOf o (newStateOf o pin l)) with
  | error e => rw [hc] at h; exact Except.noConfusion h
  | ok p =>
    obtain ⟨pd, pt⟩ := p
    rw [hc] at h
    simp only [Except.ok.injEq, Prod.mk.injEq] at h
    obtain ⟨h1, h2, h3⟩ := h
    subst h2
    subst h3
    exact ⟨h1.symm, rfl⟩

/-! ## Claims -/

set_option synthInstance.maxSize 1000 in
set_option maxRecDepth 8000 in
/-- C2: for every `old_state` (any `u8` value), `old_direction`, changed
line and level in `{0,1}`, a decoder call whose 4-bit transition word is
one of `0000, 0011, 1100, 1111, 0101, 1010, 0110, 1001` returns a decode
error carrying `old_state`, `old_direction` and the transition word.  The
words `0011, 1100, 0110, 1001` (both bits changing in one step) cannot in
fact be produced by any call — only one bit changes per call — so for
them, word `1100` included, the property holds with no witnessing call;
the repeating resting words `0000, 0101, 1010, 1111` do arise and always
error. -/
theorem claim_C2_invalid_transition_words :
    ∀ o < 256, ∀ (d : Direction) (pin : Pin), ∀ l < 2,
      transStateOf o (newStateOf o pin l) ∈ ([0, 3, 12, 15, 5, 10, 6, 9] : List Nat) →
      updateState o d pin l = .error ⟨o, d, transStateOf o (newStateOf o pin l)⟩ := by
  decide

theorem claim_C2_invalid_transition_words_witness :
    transStateOf 0 (newStateOf 0 Pin.Clk 0) ∈ ([0, 3, 12, 15, 5, 10, 6, 9] : List Nat) ∧
    updateState 0 Direction.None Pin.Clk 0 = .error ⟨0, Direction.None, 0⟩ :=
  ⟨by decide,
    claim_C2_invalid_transition_words 0 (by decide) Direction.None Pin.Clk 0
      (by decide) (by decide)⟩

set_option synthInstance.maxSize 1000 in
/-- C4: from state `00` with direction `None`, the four calls realizing
`00→01→11→10→00` yield `trigger = false` on the first three and
`trigger = true` with `Clockwise` on the final one; symmetrically the four
calls realizing `00→10→11→01→00` trigger exactly once, on the final call,
with `CounterClockwise`.  Stated both on the raw decoder calls and on the
edge handler driven with the corresponding edge sequence
(falling edge ↦ level 1, rising edge ↦ level 0). -/
theorem claim_C4_full_detent_single_trigger :
    updateState 0 Direction.None Pin.Clk 1 = .ok (1, .Clockwise, false) ∧
    updateState 1 .Clockwise Pin.Dt 1 = .ok (3, .Clockwise, false) ∧
    updateState 3 .Clockwise Pin.Clk 0 = .ok (2, .Clockwise, false) ∧
    updateState 2 .Clockwise Pin.Dt 0 = .ok (0, .Clockwise, true) ∧
    updateState 0 Direction.None Pin.Dt 1 = .ok (2, .CounterClockwise, false) ∧
    updateState 2 .CounterClockwise Pin.Clk 1 = .ok (3, .CounterClockwise, false) ∧
    updateState 3 .CounterClockwise Pin.Dt 0 = .ok (1, .CounterClockwise, false) ∧
    updateState 1 .CounterClockwise Pin.Clk 0 = .ok (0, .CounterClockwise, true) ∧
    runEdges ⟨0, Direction.None⟩
        [(Pin.Clk, .FallingEdge), (Pin.Dt, .FallingEdge),
         (Pin.Clk, .RisingEdge), (Pin.Dt, .RisingEdge)] =
      (⟨0, .Clockwise⟩, [.Clockwise]) ∧
    runEdges ⟨0, Direction.None⟩
        [(Pin.Dt, .FallingEdge), (Pin.Clk, .FallingEdge),
         (Pin.Dt, .RisingEdge), (Pin.Clk, .RisingEdge)] =
      (⟨0, .CounterClockwise⟩, [.CounterClockwise]) := by
  decide

set_option synthInstance.maxSize 1000 in
set_option maxRecDepth 8000 in
/-- C5: a call producing transition word `0100` triggers with
`CounterClockwise` exactly when the old direction is `CounterClockwise`
and errors when it is `Clockwise` or `None`; a call producing word `1000`
triggers with `Clockwise` exactly when the old direction is `Clockwise`
and errors otherwise. -/
theorem claim_C5_history_gated_trigger_words :
    ∀ o < 256, ∀ (d : Direction) (pin : Pin), ∀ l < 2,
      (transStateOf o (newStateOf o pin l) = 4 →
        updateState o d pin l =
          if d = .CounterClockwise then .ok (newStateOf o pin l, .CounterClockwise, true)
          else .error ⟨o, d, 4⟩) ∧
      (transStateOf o (newStateOf o pin l) = 8 →
        updateState o d pin l =
          if d = .Clockwise then .ok (newStateOf o pin l, .Clockwise, true)
          else .error ⟨o, d, 8⟩) := by
  decide

theorem claim_C5_history_gated_trigger_words_witness :
    updateState 1 .CounterClockwise Pin.Clk 0 = .ok (0, .CounterClockwise, true) ∧
    updateState 1 Direction.None Pin.Clk 0 = .error ⟨1, Direction.None, 4⟩ ∧
    updateState 2 .Clockwise Pin.Dt 0 = .ok (0, .Clockwise, true) ∧
    updateState 2 .CounterClockwise Pin.Dt 0 = .error ⟨2, .CounterClockwise, 8⟩ :=
  ⟨(claim_C5_history_gated_trigger_words 1 (by decide) .CounterClockwise Pin.Clk 0
      (by decide)).1 (by decide),
   (claim_C5_history_gated_trigger_words 1 (by decide) Direction.None Pin.Clk 0
      (by decide)).1 (by decide),
   (claim_C5_history_gated_trigger_words 2 (by decide) .Clockwise Pin.Dt 0
      (by decide)).2 (by decide),
   (claim_C5_history_gated_trigger_words 2 (by decide) .CounterClockwise Pin.Dt 0
      (by decide)).2 (by decide)⟩

set_option synthInstance.maxSize 1000 in
/-- C6: for every 2-bit `old_state` and level in `{0,1}`, the decoder
replaces only the bit owned by the changed line (CLK owns bit 0, DT owns
bit 1, the other bit is unchanged) and forms the transition word as
`(old_state << 2) | new_state`; `update_state` is exactly the
classification of that word paired with the new state. -/
theorem claim_C6_new_state_and_word_formation :
    ∀ o < 4, ∀ l < 2, ∀ (pin : Pin) (d : Direction),
      ((newStateOf o Pin.Clk l).testBit 0 = true ↔ l = 1) ∧
      (newStateOf o Pin.Clk l).testBit 1 = o.testBit 1 ∧
      ((newStateOf o Pin.Dt l).testBit 1 = true ↔ l = 1) ∧
      (newStateOf o Pin.Dt l).testBit 0 = o.testBit 0 ∧
      transStateOf o (newStateOf o pin l) = ((o <<< 2) ||| newStateOf o pin l) ∧
      updateState o d pin l =
        (classify o d (transStateOf o (newStateOf o pin l))).map
          (fun p => (newStateOf o pin l, p.1, p.2)) := by
  decide

theorem claim_C6_new_state_and_word_formation_witness :
    ((newStateOf 2 Pin.Clk 1).testBit 0 = true ↔ (1 : Nat) = 1) ∧
    (newStateOf 2 Pin.Clk 1).testBit 1 = (2 : Nat).testBit 1 ∧
    ((newStateOf 2 Pin.Dt 1).testBit 1 = true ↔ (1 : Nat) = 1) ∧
    (newStateOf 2 Pin.Dt 1).testBit 0 = (2 : Nat).testBit 0 ∧
    transStateOf 2 (newStateOf 2 Pin.Clk 1) = ((2 <<< 2) ||| newStateOf 2 Pin.Clk 1) ∧
    updateState 2 .Clockwise Pin.Clk 1 =
      (classify 2 .Clockwise (transStateOf 2 (newStateOf 2 Pin.Clk 1))).map
        (fun p => (newStateOf 2 Pin.Clk 1, p.1, p.2)) :=
  claim_C6_new_state_and_word_formation 2 (by decide) 1 (by decide) Pin.Clk .Clockwise

/-- C7: when the decoder returns a decode error for a delivered edge, the
edge handler persists nothing: the shared state/direction cells are
returned unchanged and no callback is invoked (they are stored only on a
successful decode, so the next valid edge decodes from the old cells). -/
theorem claim_C7_error_persists_nothing :
    ∀ (cells : EncoderCells) (pin : Pin) (edge : EdgeKind) (l : Nat) (e : DecodeError),
      levelOfEdge edge = some l →
      updateState cells.state cells.direction pin l = .error e →
      handleEdge cells pin edge = (cells, Option.none) := by
  intro cells pin edge l e hl hu
  cases edge with
  | Other => exact Option.noConfusion hl
  | RisingEdge =>
    injection hl with h
    subst h
    simp only [handleEdge, levelOfEdge]
    rw [hu]
  | FallingEdge =>
    injection hl with h
    subst h
    simp only [handleEdge, levelOfEdge]
    rw [hu]

theorem claim_C7_error_persists_nothing_witness :
    levelOfEdge EdgeKind.RisingEdge = some 0 ∧
    updateState 0 Direction.None Pin.Dt 0 = .error ⟨0, Direction.None, 0⟩ ∧
    handleEdge ⟨0, Direction.None⟩ Pin.Dt EdgeKind.RisingEdge =
      (⟨0, Direction.None⟩, Option.none) :=
  ⟨rfl, by decide,
    claim_C7_error_persists_nothing ⟨0, Direction.None⟩ Pin.Dt EdgeKind.RisingEdge 0
      ⟨0, Direction.None, 0⟩ rfl (by decide)⟩

/-- C8: in the shift-capable dispatcher, every decode with `trigger = true`
invokes the callback with the shifted name when the switch pin reads low
and with the base name when it reads high, with the decoded direction in
both cases. -/
theorem claim_C8_shift_resolution :
    ∀ (name nameShifted : String) (cells : EncoderCells) (pin : Pin) (edge : EdgeKind)
      (l : Nat) (sw : Level) (ns : Nat) (nd : Direction),
      levelOfEdge edge = some l →
      updateState cells.state cells.direction pin l = .ok (ns, nd, true) →
      handleEdgeSw name nameShifted cells pin edge sw =
        (⟨ns, nd⟩, some (if sw = Level.Low then nameShifted else name, nd)) := by
  intro name nameShifted cells pin edge l sw ns nd hl hu
  cases edge with
  | Other => exact Option.noConfusion hl
  | RisingEdge =>
    injection hl with h
    subst h
    cases sw <;> (simp [handleEdgeSw, levelOfEdge, hu]; try rfl)
  | FallingEdge =>
    injection hl with h
    subst h
    cases sw <;> (simp [handleEdgeSw, levelOfEdge, hu]; try rfl)

theorem claim_C8_shift_resolution_witness :
    updateState 2 .Clockwise Pin.Dt 0 = .ok (0, .Clockwise, true) ∧
    handleEdgeSw "rot" "rot_shifted" ⟨2, .Clockwise⟩ Pin.Dt EdgeKind.RisingEdge Level.Low =
      (⟨0, .Clockwise⟩, some ("rot_shifted", .Clockwise)) ∧
    handleEdgeSw "rot" "rot_shifted" ⟨2, .Clockwise⟩ Pin.Dt EdgeKind.RisingEdge Level.High =
      (⟨0, .Clockwise⟩, some ("rot", .Clockwise)) :=
  ⟨by decide,
    claim_C8_shift_resolution "rot" "rot_shifted" ⟨2, .Clockwise⟩ Pin.Dt EdgeKind.RisingEdge
      0 Level.Low 0 .Clockwise rfl (by decide),
    claim_C8_shift_resolution "rot" "rot_shifted" ⟨2, .Clockwise⟩ Pin.Dt EdgeKind.RisingEdge
      0 Level.High 0 .Clockwise rfl (by decide)⟩

/-- C3: if exactly one of the shifted name and the switch pin is
configured, a detent trigger produces no callback invocation, surfaces the
configuration-error diagnostic, and the encoder keeps running (the decoded
state and direction are still persisted). -/
theorem claim_C3_config_error_suppresses_callback :
    ∀ (name : String) (nameShifted : Option String) (swSample : Option Level)
      (cells : EncoderCells) (pin : Pin) (edge : EdgeKind) (l ns : Nat) (nd : Direction),
      nameShifted.isSome ≠ swSample.isSome →
      levelOfEdge edge = some l →
      updateState cells.state cells.direction pin l = .ok (ns, nd, true) →
      handleEdgeCfg name nameShifted swSample cells pin edge =
        (⟨ns, nd⟩, Option.none, true) := by
  intro name nameShifted swSample cells pin edge l ns nd hcfg hl hu
  have hres : resolveTriggerName name nameShifted swSample = .configError := by
    cases nameShifted <;> cases swSample <;> simp_all [resolveTriggerName]
  cases edge with
  | Other => exact Option.noConfusion hl
  | RisingEdge =>
    injection hl with h
    subst h
    simp [handleEdgeCfg, levelOfEdge, hu, hres]
  | FallingEdge =>
    injection hl with h
    subst h
    simp [handleEdgeCfg, levelOfEdge, hu, hres]

theorem claim_C3_config_error_suppresses_callback_witness :
    (some "rot_shifted" : Option String).isSome ≠ (Option.none : Option Level).isSome ∧
    updateState 1 .CounterClockwise Pin.Clk 0 = .ok (0, .CounterClockwise, true) ∧
    handleEdgeCfg "rot" (some "rot_shifted") Option.none ⟨1, .CounterClockwise⟩ Pin.Clk
        EdgeKind.RisingEdge =
      (⟨0, .CounterClockwise⟩, Option.none, true) :=
  ⟨by decide, by decide,
    claim_C3_config_error_suppresses_callback "rot" (some "rot_shifted") Option.none
      ⟨1, .CounterClockwise⟩ Pin.Clk EdgeKind.RisingEdge 0 0 .CounterClockwise
      (by decide) rfl (by decide)⟩

/-- C9: whenever the decoder returns `Ok` with `trigger = true`, the
returned new state is `00` — a trigger only happens on a transition into
the resting position. -/
theorem claim_C9_trigger_only_into_resting :
    ∀ o < 4, ∀ (d : Direction) (pin : Pin), ∀ l < 2, ∀ (ns : Nat) (nd : Direction),
      updateState o d pin l = .ok (ns, nd, true) → ns = 0 := by
  intro o ho d pin l hl ns nd h
  obtain ⟨hns, hc⟩ := updateState_ok h
  have hw := classify_ok_trigger hc rfl
  have hlt := newStateOf_lt_four o pin hl
  rw [← hns] at hw hlt
  unfold transStateOf at hw
  rw [Nat.shiftLeft_eq] at hw
  norm_num at hw
  omega

theorem claim_C9_trigger_only_into_resting_witness :
    updateState 2 .Clockwise Pin.Dt 0 = .ok (0, .Clockwise, true) ∧ (0 : Nat) = 0 :=
  ⟨by decide,
    claim_C9_trigger_only_into_resting 2 (by decide) .Clockwise Pin.Dt 0 (by decide)
      0 .Clockwise (by decide)⟩

theorem handleEdge_preserves_direction (cells : EncoderCells) (pin : Pin) (edge : EdgeKind)
    (h : cells.direction ≠ Direction.None) :
    (handleEdge cells pin edge).1.direction ≠ Direction.None := by
  cases edge with
  | Other => exact h
  | RisingEdge =>
    cases hu : updateState cells.state cells.direction pin 0 with
    | error e => simpa [handleEdge, levelOfEdge, hu] using h
    | ok r =>
      obtain ⟨ns, nd, tr⟩ := r
      have hnd : nd ≠ Direction.None := classify_ok_direction (updateState_ok hu).2
      simpa [handleEdge, levelOfEdge, hu] using hnd
  | FallingEdge =>
    cases hu : updateState cells.state cells.direction pin 1 with
    | error e => simpa [handleEdge, levelOfEdge, hu] using h
    | ok r =>
      obtain ⟨ns, nd, tr⟩ := r
      have hnd : nd ≠ Direction.None := classify_ok_direction (updateState_ok hu).2
      simpa [handleEdge, levelOfEdge, hu] using hnd

theorem runEdges_preserves_direction (edges : List (Pin × EdgeKind)) :
    ∀ cells : EncoderCells, cells.direction ≠ Direction.None →
      (runEdges cells edges).1.direction ≠ Direction.None := by
  induction edges with
  | nil => intro cells h; exact h
  | cons e rest ih =>
    intro cells h
    exact ih _ (handleEdge_preserves_direction cells e.1 e.2 h)

/-- C10: a successful decode never returns direction `None`, and
consequently once the stored direction of an encoder has left `None` it
never returns to `None` over any further sequence of delivered edges. -/
theorem claim_C10_ok_direction_never_none :
    (∀ (o : Nat) (d : Direction) (pin : Pin) (l ns : Nat) (nd : Direction) (tr : Bool),
        updateState o d pin l = .ok (ns, nd, tr) → nd ≠ Direction.None) ∧
    (∀ (cells : EncoderCells) (edges : List (Pin × EdgeKind)),
        cells.direction ≠ Direction.None →
        (runEdges cells edges).1.direction ≠ Direction.None) :=
  ⟨fun _ _ _ _ _ _ _ h => classify_ok_direction (updateState_ok h).2,
   fun cells edges h => runEdges_preserves_direction edges cells h⟩

theorem claim_C10_ok_direction_never_none_witness :
    Direction.Clockwise ≠ Direction.None ∧
    (runEdges ⟨0, Direction.Clockwise⟩ [(Pin.Dt, EdgeKind.FallingEdge)]).1.direction ≠
      Direction.None :=
  ⟨claim_C10_ok_direction_never_none.1 0 Direction.None Pin.Clk 1 1 .Clockwise false
      (by decide),
   claim_C10_ok_direction_never_none.2 ⟨0, Direction.Clockwise⟩
      [(Pin.Dt, EdgeKind.FallingEdge)] (by decide)⟩

/-- C1: the long-press switch classifier: a falling edge records the event
timestamp as press-start and reports `(name, pressed = true)`; a rising
edge with a recorded press-start reports `(long_press_name, false)` when
the elapsed time exceeds the threshold and `(name, false)` otherwise,
clearing press-start in both cases. -/
theorem claim_C1_long_press_classifier :
    ∀ (name longPressName : String) (threshold : Nat) (pressStart : Option Nat)
      (start timestamp : Nat),
      handleLongPressEdge name longPressName threshold pressStart .FallingEdge timestamp =
        (some timestamp, some (name, true)) ∧
      (threshold < timestamp - start →
        handleLongPressEdge name longPressName threshold (some start) .RisingEdge timestamp =
          (Option.none, some (longPressName, false))) ∧
      (¬ threshold < timestamp - start →
        handleLongPressEdge name longPressName threshold (some start) .RisingEdge timestamp =
          (Option.none, some (name, false))) := by
  intro name lp th ps start ts
  refine ⟨rfl, fun h => ?_, fun h => ?_⟩ <;> simp [handleLongPressEdge, h]

theorem claim_C1_long_press_classifier_witness :
    handleLongPressEdge "button" "button_long" 4 (some 0) .FallingEdge 9 =
      (some 9, some ("button", true)) ∧
    (4 : Nat) < 5 - 0 ∧
    handleLongPressEdge "button" "button_long" 4 (some 0) .RisingEdge 5 =
      (Option.none, some ("button_long", false)) ∧
    ¬ (4 : Nat) < 1 - 0 ∧
    handleLongPressEdge "button" "button_long" 4 (some 0) .RisingEdge 1 =
      (Option.none, some ("button", false)) :=
  ⟨(claim_C1_long_press_classifier "button" "button_long" 4 (some 0) 0 9).1,
   by decide,
   (claim_C1_long_press_classifier "button" "button_long" 4 (some 0) 0 5).2.1 (by decide),
   by decide,
   (claim_C1_long_press_classifier "button" "button_long" 4 (some 0) 0 1).2.2 (by decide)⟩

end RotaryHelper
